import Mathlib

/-!
Shallow embedding of the langgraph-cua-py action-execution layer
(`browser_adapter.py`), run-report aggregator (`report.py`) and the
session-provisioning node (`nodes/create_vm_instance.py`).

Python machine integers are unbounded, so counters are `Int`; Python
`datetime.now()` is threaded as an explicit `now : Nat` parameter;
Python truthiness on optional strings / lists is modelled explicitly.
-/

/-- Dictionary of string keys and string values, for duck-typed dicts. -/
abbrev Dict : Type := List (String × String)

/-- Python `d.get(k)` on a string-to-string dict. -/
def Dict.get (d : Dict) (k : String) : Option String :=
  (List.lookup k d)

/-- Python truthiness of an optional string: `None` and `""` are falsy. -/
def strTruthy : Option String → Bool
  | none => false
  | some s => s ≠ ""

/-! ## Key-Name Translator (`BrowserInstance._map_key`) -/

/-- The literal `key_map` dict of `BrowserInstance._map_key`. -/
def keyMap : List (String × String) :=
  [("Return", "Enter"),
   ("BackSpace", "Backspace"),
   ("Escape", "Escape"),
   ("Tab", "Tab"),
   ("Delete", "Delete"),
   ("Insert", "Insert"),
   ("Home", "Home"),
   ("End", "End"),
   ("Page_Up", "PageUp"),
   ("Page_Down", "PageDown"),
   ("Up", "ArrowUp"),
   ("Down", "ArrowDown"),
   ("Left", "ArrowLeft"),
   ("Right", "ArrowRight"),
   ("Meta_L", "Meta"),
   ("Alt_L", "Alt"),
   ("Caps_Lock", "CapsLock"),
   ("slash", "/"),
   ("backslash", "\\")]

/-- Translation function `BrowserInstance._map_key`: `key_map.get(key, key)`. -/
def map_key (key : String) : String :=
  (keyMap.lookup key).getD key

/-! ## Action Executor (`BrowserInstance._computer_async`) -/

/-- One primitive input event issued against the live page. -/
inductive Effect
  | click (x y : Int) (button : String) (count : Nat)
  | dblclick (x y : Int)
  | move (x y : Int)
  | down
  | up
  | keyType (text : String)
  | keyPress (key : String)
  | wheel (dx dy : Int)
  | capture
deriving DecidableEq, Repr

/-- Exceptions the executor can raise. -/
inductive ExecError
  | unknownAction (action : String)
  | indexError
deriving DecidableEq, Repr

/-- Response from a computer action (`ComputerResponse` dataclass). -/
structure ComputerResponse where
  base_64_image : String
deriving DecidableEq, Repr

/-- Arguments of `BrowserInstance._computer_async`. -/
structure ComputerArgs where
  action : String
  coordinates : Option (List Int) := none
  button : Option String := none
  num_clicks : Option Nat := some 1
  text : Option String := none
  keys : Option (List String) := none
  path : Option (List (List Int)) := none
  delta_x : Option Int := none
  delta_y : Option Int := none

/-- Python truthiness of an optional list: `None` and `[]` are falsy. -/
def listTruthy {α : Type} : Option (List α) → Bool
  | none => false
  | some l => !l.isEmpty

/-- Indexing `xs[0], xs[1]` on a Python list: raises `IndexError` when too short. -/
def getXY (l : List Int) : Except ExecError (Int × Int) :=
  match l with
  | x :: y :: _ => .ok (x, y)
  | _ => .error .indexError

/-- The moves of the drag loop `for point in path[1:]`, keeping the
effects issued before an eventual `IndexError`. -/
def dragTail : List (List Int) → List Effect × Option ExecError
  | [] => ([], none)
  | p :: rest =>
    match getXY p with
    | .error e => ([], some e)
    | .ok (x, y) =>
      let r := dragTail rest
      (Effect.move x y :: r.1, r.2)

/-- Python `num_clicks or 1`: `None` and `0` give `1`. -/
def numClicksOr1 : Option Nat → Nat
  | none => 1
  | some n => if n = 0 then 1 else n

/-- The dispatch chain of `_computer_async` up to (not including) the final
screenshot: the effects issued, and the exception raised if any. -/
def runAction (args : ComputerArgs) : List Effect × Option ExecError :=
  if args.action = "click_mouse" then
    if listTruthy args.coordinates then
      match getXY (args.coordinates.getD []) with
      | .error e => ([], some e)
      | .ok (x, y) =>
        let pw_button :=
          if args.button = some "right" then "right"
          else if args.button = some "middle" then "middle"
          else "left"
        ([.click x y pw_button (numClicksOr1 args.num_clicks)], none)
    else ([], none)
  else if args.action = "double_click" then
    if listTruthy args.coordinates then
      match getXY (args.coordinates.getD []) with
      | .error e => ([], some e)
      | .ok (x, y) => ([.dblclick x y], none)
    else ([], none)
  else if args.action = "move_mouse" then
    if listTruthy args.coordinates then
      match getXY (args.coordinates.getD []) with
      | .error e => ([], some e)
      | .ok (x, y) => ([.move x y], none)
    else ([], none)
  else if args.action = "drag_mouse" then
    if listTruthy args.path ∧ 2 ≤ (args.path.getD []).length then
      match args.path.getD [] with
      | [] => ([], none)
      | start :: rest =>
        match getXY start with
        | .error e => ([], some e)
        | .ok (x, y) =>
          match dragTail rest with
          | (es, some e) => (Effect.move x y :: Effect.down :: es, some e)
          | (es, none) => (Effect.move x y :: Effect.down :: es ++ [Effect.up], none)
    else ([], none)
  else if args.action = "type_text" then
    if strTruthy args.text then ([.keyType (args.text.getD "")], none)
    else ([], none)
  else if args.action = "press_key" then
    if listTruthy args.keys then
      ((args.keys.getD []).map (fun k => Effect.keyPress (map_key k)), none)
    else ([], none)
  else if args.action = "scroll" then
    if listTruthy args.coordinates ∧ (args.delta_x ≠ none ∨ args.delta_y ≠ none) then
      match getXY (args.coordinates.getD []) with
      | .error e => ([], some e)
      | .ok (x, y) =>
        ([.move x y, .wheel (args.delta_x.getD 0) (args.delta_y.getD 0)], none)
    else ([], none)
  else if args.action = "take_screenshot" then
    ([], none)
  else
    ([], some (.unknownAction args.action))

/-- The base64 alphabet of RFC 4648 as used by `base64.b64encode`. -/
def b64Table : List Char :=
  "ABCDEFGHIJKLMNOPQRSTUVWXYZabcdefghijklmnopqrstuvwxyz0123456789+/".toList

/-- Character of one 6-bit group. -/
def b64Char (n : Nat) : Char := b64Table.getD n 'A'

/-- Encoding `base64.b64encode` on a byte list, with `=` padding. -/
def b64encode : List Nat → List Char
  | [] => []
  | [a] => [b64Char (a / 4), b64Char (a % 4 * 16), '=', '=']
  | [a, b] => [b64Char (a / 4), b64Char (a % 4 * 16 + b / 16), b64Char (b % 16 * 4), '=']
  | a :: b :: c :: rest =>
    b64Char (a / 4) :: b64Char (a % 4 * 16 + b / 16) ::
      b64Char (b % 16 * 4 + c / 64) :: b64Char (c % 64) :: b64encode rest

/-- Executor `BrowserInstance._computer_async`, parameterised by the page\x27s
screenshot function `f` (bytes of `page.screenshot()` as a function of the
effects applied to the page so far).  Returns the effect trace and either
the raised exception or the `ComputerResponse` whose sole payload is the
base64-encoded screenshot taken after the action\x27s effects. -/
def computer_async (f : List Effect → List Nat) (args : ComputerArgs) :
    List Effect × Except ExecError ComputerResponse :=
  match runAction args with
  | (tr, some e) => (tr, .error e)
  | (tr, none) =>
    (tr ++ [Effect.capture], .ok ⟨String.mk (b64encode (f tr))⟩)

/-- The recognized action kinds of the dispatch chain. -/
def dispatchSet : List String :=
  ["click_mouse", "double_click", "move_mouse", "drag_mouse",
   "type_text", "press_key", "scroll", "take_screenshot"]

/-! ## Run-report aggregator (`report.py`) -/

/-- Status enum `ActionStatus`. -/
inductive ActionStatus
  | success
  | failed
  | skipped
deriving DecidableEq, Repr

/-- Record dataclass `ActionRecord`.  Wall-clock times are `Nat` ticks. -/
structure ActionRecord where
  action_type : String
  call_id : String
  status : ActionStatus
  timestamp : Nat
  details : Dict := []
  error : Option String := none
  duration_ms : Option Int := none
deriving DecidableEq, Repr

/-- Report dataclass `CUAReport`.  Counters are Python ints, hence `Int`. -/
structure CUAReport where
  start_time : Nat
  end_time : Option Nat := none
  total_actions : Int := 0
  successful_actions : Int := 0
  failed_actions : Int := 0
  skipped_actions : Int := 0
  actions : List ActionRecord := []
  instance_id : Option String := none
  final_status : String := "unknown"
  error_summary : List String := []
deriving DecidableEq, Repr

/-- Fresh `CUAReport(start_time=now)` with all defaulted fields. -/
def freshReport (now : Nat) : CUAReport := { start_time := now }

/-- Append method `CUAReport.add_action`. -/
def CUAReport.add_action (r : CUAReport) (a : ActionRecord) : CUAReport :=
  let r := { r with actions := r.actions ++ [a], total_actions := r.total_actions + 1 }
  match a.status with
  | .success => { r with successful_actions := r.successful_actions + 1 }
  | .failed =>
    { r with failed_actions := r.failed_actions + 1,
             error_summary :=
               if strTruthy a.error then
                 r.error_summary ++ [a.action_type ++ ": " ++ a.error.getD ""]
               else r.error_summary }
  | .skipped => { r with skipped_actions := r.skipped_actions + 1 }

/-- Arguments of `CUAReportGenerator.record_action`. -/
structure RecordActionInput where
  action_type : String
  call_id : String
  details : Dict := []
  error : Option String := none
  status : Option ActionStatus := none

/-- Mutable state of a `CUAReportGenerator`. -/
structure GenState where
  report : Option CUAReport := none
  last_action_time : Option Nat := none

/-- A freshly constructed `CUAReportGenerator`. -/
def initGen : GenState := {}

/-- Method `CUAReportGenerator.start`. -/
def GenState.start (_g : GenState) (now : Nat) : GenState :=
  { report := some (freshReport now), last_action_time := some now }

/-- Method `CUAReportGenerator.record_action` (all `datetime.now()` calls of one
invocation yield the same tick `now`). -/
def record_action (g : GenState) (now : Nat) (inp : RecordActionInput) : GenState :=
  let g := match g.report with
    | none => g.start now
    | some _ => g
  let r := g.report.getD (freshReport now)
  let duration_ms : Option Int := g.last_action_time.map (fun t => ((now : Int) - t) * 1000)
  let status := match inp.status with
    | some s => s
    | none => if strTruthy inp.error then ActionStatus.failed else ActionStatus.success
  let a : ActionRecord :=
    { action_type := inp.action_type, call_id := inp.call_id, status := status,
      timestamp := now, details := inp.details, error := inp.error,
      duration_ms := duration_ms }
  { report := some (r.add_action a), last_action_time := some now }

/-! ## Stream/State Reconstructor (`report.py`) -/

/-- One element of a message\x27s `additional_kwargs["tool_outputs"]`. -/
structure ToolOutput where
  type : Option String := none
  call_id : Option String := none
  action : Dict := []
deriving DecidableEq, Repr

/-- The `additional_kwargs` attribute of a LangChain message. -/
structure AdditionalKwargs where
  tool_outputs : List ToolOutput := []
  type : Option String := none
  error : Option String := none
deriving DecidableEq, Repr

/-- A message of the final state\x27s history: `additional_kwargs` is `none`
when the object has no such attribute. -/
structure Message where
  additional_kwargs : Option AdditionalKwargs := none
  type : Option String := none
  tool_call_id : Option String := none
deriving DecidableEq, Repr

/-- The successful `ActionRecord` recorded for one `computer_call` output. -/
def mkCallRecord (now : Nat) (o : ToolOutput) : ActionRecord :=
  { action_type := (o.action.get "type").getD "unknown",
    call_id := o.call_id.getD "unknown",
    status := .success, timestamp := now, details := o.action,
    error := none, duration_ms := none }

/-- In-place mutation `action.status = FAILED; action.error = error`. -/
def markFailed (a : ActionRecord) (err : String) : ActionRecord :=
  { a with status := .failed, error := some err }

/-- The `for action in report.actions: ... break` loop of
`generate_report_from_state`: flips the first record whose `call_id`
equals the message\x27s `tool_call_id`, returning the updated list and the
error-summary line, or `none` when no record matches. -/
def flipLoop (cid : Option String) (err : String) :
    List ActionRecord → Option (List ActionRecord × String)
  | [] => none
  | a :: rest =>
    if some a.call_id = cid then
      some (markFailed a err :: rest, a.action_type ++ ": " ++ err)
    else
      match flipLoop cid err rest with
      | some (rest2, line) => some (a :: rest2, line)
      | none => none

/-- The error branch of `generate_report_from_state`: find the matching
action, mark it failed and update the counters and error summary. -/
def applyError (r : CUAReport) (cid : Option String) (err : String) : CUAReport :=
  match flipLoop cid err r.actions with
  | none => r
  | some (acts, line) =>
    { r with actions := acts,
             successful_actions := r.successful_actions - 1,
             failed_actions := r.failed_actions + 1,
             error_summary := r.error_summary ++ [line] }

/-- First `if` of the message loop of `generate_report_from_state`: record
one successful action per embedded `computer_call` tool output (when the
message has an `additional_kwargs` attribute). -/
def pmRecordCalls (now : Nat) (r : CUAReport) (m : Message) : CUAReport :=
  match m.additional_kwargs with
  | some ak =>
    ak.tool_outputs.foldl
      (fun r o => if o.type = some "computer_call" then r.add_action (mkCallRecord now o) else r) r
  | none => r

/-- Second `if` of the message loop of `generate_report_from_state`: on a
tool-response of kind `computer_call_output` carrying a truthy error, flip
the matching action. -/
def pmApplyToolError (r : CUAReport) (m : Message) : CUAReport :=
  if m.type = some "tool" then
    let ak := m.additional_kwargs.getD {}
    if ak.type = some "computer_call_output" then
      match ak.error with
      | some e => if e = "" then r else applyError r m.tool_call_id e
      | none => r
    else r
  else r

/-- The body of the message loop of `generate_report_from_state`: both
`if` branches run in order for each message. -/
def processMessage (now : Nat) (r : CUAReport) (m : Message) : CUAReport :=
  pmApplyToolError (pmRecordCalls now r m) m

/-- The final state dictionary consumed by `generate_report_from_state`. -/
structure FinalState where
  instance_id : Option String := none
  messages : List Message := []
deriving DecidableEq, Repr

/-- Reconstructor `generate_report_from_state`. -/
def generate_report_from_state (now : Nat) (final_state : FinalState) : CUAReport :=
  let r := { freshReport now with instance_id := final_state.instance_id }
  let r := final_state.messages.foldl (processMessage now) r
  { r with end_time := some now,
           final_status := if r.failed_actions = 0 then "completed" else "completed_with_errors" }

/-- The data reachable from a `take_computer_action` update. -/
structure TakeActionData where
  instance_id : Option String := none
  tool_call_id : Option String := none
  error : Option String := none
deriving DecidableEq, Repr

/-- One update event of `from_stream_updates`: each field is the value
under the corresponding step-name key, `none` when the key is absent.  For
`call_model`, the inner `Option` is `none` when the messages object has no
`additional_kwargs` attribute. -/
structure UpdateData where
  take_computer_action : Option TakeActionData := none
  call_model : Option (Option (List ToolOutput)) := none
  create_vm_instance : Option (Option String) := none
deriving DecidableEq, Repr

/-- The `if`/`elif` chain of the update loop of `from_stream_updates`. -/
def processUpdate (now : Nat) (r : CUAReport) (u : UpdateData) : CUAReport :=
  match u.take_computer_action with
  | some t =>
    let r := if strTruthy t.instance_id then { r with instance_id := t.instance_id } else r
    r.add_action
      { action_type := "computer_action", call_id := t.tool_call_id.getD "unknown",
        status := if strTruthy t.error then .failed else .success,
        timestamp := now, details := [], error := t.error, duration_ms := none }
  | none =>
    match u.call_model with
    | some m =>
      match m with
      | some outs =>
        outs.foldl
          (fun r o => if o.type = some "computer_call" then r.add_action (mkCallRecord now o) else r) r
      | none => r
    | none =>
      match u.create_vm_instance with
      | some i => if strTruthy i then { r with instance_id := i } else r
      | none => r

/-- Reconstructor `CUAReportGenerator.from_stream_updates`. -/
def from_stream_updates (now : Nat) (updates : List UpdateData) : CUAReport :=
  let r := updates.foldl (processUpdate now) (freshReport now)
  { r with end_time := some now,
           final_status := if r.failed_actions = 0 then "completed" else "completed_with_errors" }

/-! ## Session manager (`PlaywrightClient`, `create_vm_instance`) -/

/-- A `BrowserInstance`: the live Playwright handles are external, so only
the data the claims reach is represented. -/
structure BrowserInstance where
  id : String
  viewport_width : Nat := 1280
  viewport_height : Nat := 720
deriving DecidableEq, Repr

/-- Locator `BrowserInstance.get_stream_url().stream_url`. -/
def BrowserInstance.stream_url_of (inst : BrowserInstance) : String :=
  "local://browser/" ++ inst.id

/-- Client state of `PlaywrightClient.__init__`. -/
structure PlaywrightClient where
  headless : Bool
  instances : List (String × BrowserInstance) := []
deriving DecidableEq, Repr

/-- The message of `PlaywrightClient.start_ubuntu`. -/
def startUbuntuMsg : String :=
  "Ubuntu VM instances are not supported with the free Playwright adapter. " ++
  "Use environment=\x27web\x27 for browser-only automation, or use Scrapybara for full VM support."

/-- The message of `PlaywrightClient.start_windows`. -/
def startWindowsMsg : String :=
  "Windows VM instances are not supported with the free Playwright adapter. " ++
  "Use environment=\x27web\x27 for browser-only automation, or use Scrapybara for full VM support."

/-- Method `PlaywrightClient.start_ubuntu`: raises `NotImplementedError` for every
`self` and every `**kwargs`. -/
def PlaywrightClient.start_ubuntu (_c : PlaywrightClient) (_kwargs : Dict) :
    Except String BrowserInstance :=
  .error startUbuntuMsg

/-- Method `PlaywrightClient.start_windows`: raises `NotImplementedError` for every
`self` and every `**kwargs`. -/
def PlaywrightClient.start_windows (_c : PlaywrightClient) (_kwargs : Dict) :
    Except String BrowserInstance :=
  .error startWindowsMsg

/-- The module-level `get_playwright_client` acting on the module global
`_client_instance`: returns the client and the new global. -/
def get_playwright_client (client_instance : Option PlaywrightClient) (headless : Bool) :
    PlaywrightClient × Option PlaywrightClient :=
  match client_instance with
  | none =>
    let c : PlaywrightClient := { headless := headless }
    (c, some c)
  | some c => (c, some c)

/-- Constant `BLOCKED_DOMAINS` of `nodes/create_vm_instance.py`. -/
def BLOCKED_DOMAINS : List String :=
  ["maliciousbook.com", "evilvideos.com", "darkwebforum.com",
   "shadytok.com", "suspiciouspins.com", "ilanbigio.com"]

/-- The `ubuntu` message of `create_vm_instance`. -/
def cvmUbuntuMsg : String :=
  "Ubuntu VM instances are not supported with the free Playwright adapter. " ++
  "Use environment=\x27web\x27 for browser-only automation."

/-- The `windows` message of `create_vm_instance`. -/
def cvmWindowsMsg : String :=
  "Windows VM instances are not supported with the free Playwright adapter. " ++
  "Use environment=\x27web\x27 for browser-only automation."

/-- Result of the `create_vm_instance` node: `none` models the early
`return {}`, `some (instance_id, stream_url)` the normal return. -/
abbrev CreateVmResult := Option (String × String)

/-- Node `create_vm_instance`, parameterised by `start_browser` (the Playwright
launch is external; it receives `timeout_hours` and the stripped blocked
domains).  `instance_id` comes from the state, the rest from the
configuration. -/
def create_vm_instance
    (start_browser : Option Int → List String → BrowserInstance)
    (instance_id : Option String) (environment : Option String)
    (timeout_hours : Option Int) : Except String CreateVmResult :=
  if instance_id.isSome then .ok none
  else if environment = some "ubuntu" then .error cvmUbuntuMsg
  else if environment = some "windows" then .error cvmWindowsMsg
  else if environment = some "web" then
    let blocked_domains :=
      BLOCKED_DOMAINS.map (fun d => (d.replace "https://" "").replace "www." "")
    let inst := start_browser timeout_hours blocked_domains
    .ok (some (inst.id, inst.stream_url_of))
  else
    .error ("Invalid environment. Must be \x27web\x27 for browser automation. Received: " ++
      (match environment with | some e => e | none => "None"))

/-! ## Auxiliary predicates and concrete instances used by the theorems -/

/-- An action request is well formed when every coordinate pair and every
path point that the executor may index has at least two entries. -/
def wfArgs (args : ComputerArgs) : Prop :=
  (∀ c, args.coordinates = some c → c = [] ∨ 2 ≤ c.length) ∧
  (∀ ps, args.path = some ps → ∀ p ∈ ps, 2 ≤ p.length)

/-- `sub` occurs as a contiguous substring of `s`. -/
def strHasSubstr (s sub : String) : Prop := sub.toList <:+: s.toList

instance (s sub : String) : Decidable (strHasSubstr s sub) := by
  unfold strHasSubstr
  infer_instance

/-- The error-summary line contributed by one appended record: present
exactly when the record is failed and carries a truthy (non-empty) error. -/
def errLine (a : ActionRecord) : Option String :=
  match a.status, a.error with
  | ActionStatus.failed, some e =>
    if e = "" then none else some (a.action_type ++ ": " ++ e)
  | _, _ => none

/-- The Report counters partition invariant. -/
def reportInvariant (r : CUAReport) : Prop :=
  r.total_actions = r.successful_actions + r.failed_actions + r.skipped_actions

/-- Final state whose history contains two optimistic `computer_call`
records sharing call id `c1` followed by one error output for `c1`. -/
def c2State : FinalState :=
  { messages :=
      [{ additional_kwargs := some { tool_outputs :=
           [{ type := some "computer_call", call_id := some "c1", action := [("type", "click")] },
            { type := some "computer_call", call_id := some "c1", action := [("type", "scroll")] }] } },
       { type := some "tool", tool_call_id := some "c1",
         additional_kwargs := some { type := some "computer_call_output", error := some "boom" } }] }

/-! ## Helper lemmas -/

theorem lookup_mem : ∀ {l : List (String × String)} {k v : String},
    List.lookup k l = some v → (k, v) ∈ l := by
  intro l
  induction l with
  | nil => intro k v h; simp [List.lookup] at h
  | cons p rest ih =>
    intro k v h
    obtain ⟨a, b⟩ := p
    rw [List.lookup] at h
    by_cases hk : (k == a)
    · simp only [hk] at h
      obtain rfl : b = v := by simpa using h
      obtain rfl : k = a := by simpa using hk
      exact List.mem_cons_self _ _
    · simp only [Bool.not_eq_true] at hk
      rw [hk] at h
      exact List.mem_cons_of_mem _ (ih h)

theorem keyMap_values_fixed : ∀ p ∈ keyMap, map_key p.2 = p.2 := by decide

theorem map_key_idem (k : String) : map_key (map_key k) = map_key k := by
  unfold map_key
  cases h : List.lookup k keyMap with
  | none => simp [h]
  | some v =>
    simp only [h, Option.getD_some]
    have hv := keyMap_values_fixed _ (lookup_mem h)
    simpa [map_key] using hv

theorem dragTail_no_capture : ∀ ps : List (List Int), Effect.capture ∉ (dragTail ps).1 := by
  intro ps
  induction ps with
  | nil => simp [dragTail]
  | cons p rest ih =>
    unfold dragTail
    cases h : getXY p with
    | error e => simp
    | ok xy => obtain ⟨x, y⟩ := xy; simpa using ih

theorem dragTail_ok : ∀ ps : List (List Int), (∀ p ∈ ps, 2 ≤ p.length) → (dragTail ps).2 = none := by
  intro ps
  induction ps with
  | nil => intro _; simp [dragTail]
  | cons p rest ih =>
    intro h
    have hp := h p (List.mem_cons_self _ _)
    obtain ⟨x, rest1⟩ := p
    · simp at hp
    next x tail =>
      obtain ⟨y, tail2⟩ := tail
      · simp at hp
      next y tail2 =>
        unfold dragTail
        simp only [getXY]
        exact ih (fun q hq => h q (List.mem_cons_of_mem _ hq))

theorem notMem_dispatch {s : String} (h : s ∉ dispatchSet) :
    ¬(s = "click_mouse") ∧ ¬(s = "double_click") ∧ ¬(s = "move_mouse") ∧ ¬(s = "drag_mouse") ∧
    ¬(s = "type_text") ∧ ¬(s = "press_key") ∧ ¬(s = "scroll") ∧ ¬(s = "take_screenshot") := by
  simpa [dispatchSet, not_or] using h

theorem runAction_unknown (args : ComputerArgs) (h : args.action ∉ dispatchSet) :
    runAction args = ([], some (ExecError.unknownAction args.action)) := by
  obtain ⟨h1, h2, h3, h4, h5, h6, h7, h8⟩ := notMem_dispatch h
  simp [runAction, h1, h2, h3, h4, h5, h6, h7, h8]

theorem mem_dispatch_cases {s : String} (h : s ∈ dispatchSet) :
    s = "click_mouse" ∨ s = "double_click" ∨ s = "move_mouse" ∨ s = "drag_mouse" ∨
    s = "type_text" ∨ s = "press_key" ∨ s = "scroll" ∨ s = "take_screenshot" := by
  simpa [dispatchSet] using h

theorem getXY_error {l : List Int} {e : ExecError} (h : getXY l = Except.error e) :
    e = ExecError.indexError := by
  cases l with
  | nil => exact (by simpa [getXY] using h : ExecError.indexError = e).symm
  | cons x t =>
    cases t with
    | nil => exact (by simpa [getXY] using h : ExecError.indexError = e).symm
    | cons y r => simp [getXY] at h

theorem dragTail_error : ∀ (ps : List (List Int)) (e : ExecError),
    (dragTail ps).2 = some e → e = ExecError.indexError := by
  intro ps
  induction ps with
  | nil => intro e h; simp [dragTail] at h
  | cons p rest ih =>
    intro e h
    unfold dragTail at h
    cases hg : getXY p with
    | error e2 =>
      rw [hg] at h
      simp at h
      exact h ▸ getXY_error hg
    | ok xy =>
      obtain ⟨x, y⟩ := xy
      rw [hg] at h
      simpa using ih e (by simpa using h)

theorem runAction_no_unknown (args : ComputerArgs) (h : args.action ∈ dispatchSet) :
    (runAction args).2 = none ∨ (runAction args).2 = some ExecError.indexError := by
  unfold runAction
  rcases mem_dispatch_cases h with h | h | h | h | h | h | h | h <;>
    simp only [h, String.reduceEq, reduceIte] <;>
    (try split_ifs) <;>
    (repeat' split) <;> simp_all <;>
    (rename_i heq
     first
       | exact getXY_error heq
       | exact dragTail_error _ _ (by rw [heq]))

theorem runAction_no_capture (args : ComputerArgs) : Effect.capture ∉ (runAction args).1 := by
  unfold runAction
  split_ifs <;> (repeat' split) <;> simp_all <;>
    (rename_i heq
     intro hcmem
     exact dragTail_no_capture _ (by rw [heq]; exact hcmem))

theorem getXY_ok_of_len {l : List Int} (h : 2 ≤ l.length) : ∃ x y, getXY l = Except.ok (x, y) := by
  cases l with
  | nil => simp at h
  | cons x t =>
    cases t with
    | nil => simp at h
    | cons y r => exact ⟨x, y, rfl⟩

theorem runAction_ok_of_wf (args : ComputerArgs) (hmem : args.action ∈ dispatchSet)
    (hwf : wfArgs args) : (runAction args).2 = none := by
  obtain ⟨hc, hp⟩ := hwf
  have hcoord : listTruthy args.coordinates = true →
      ∃ x y, getXY (args.coordinates.getD []) = Except.ok (x, y) := by
    intro ht
    cases hco : args.coordinates with
    | none => simp [hco, listTruthy] at ht
    | some c =>
      rcases hc c hco with hnil | hlen
      · subst hnil; simp [hco, listTruthy] at ht
      · simpa using getXY_ok_of_len hlen
  unfold runAction
  rcases mem_dispatch_cases hmem with h | h | h | h | h | h | h | h <;>
    simp only [h, String.reduceEq, reduceIte]
  · by_cases ht : listTruthy args.coordinates = true
    · obtain ⟨x, y, hxy⟩ := hcoord ht
      simp [ht, hxy]
    · simp [ht]
  · by_cases ht : listTruthy args.coordinates = true
    · obtain ⟨x, y, hxy⟩ := hcoord ht
      simp [ht, hxy]
    · simp [ht]
  · by_cases ht : listTruthy args.coordinates = true
    · obtain ⟨x, y, hxy⟩ := hcoord ht
      simp [ht, hxy]
    · simp [ht]
  · by_cases ht : listTruthy args.path = true ∧ 2 ≤ (args.path.getD []).length
    · cases hpa : args.path with
      | none => rw [hpa] at ht; simp [listTruthy] at ht
      | some ps =>
        rw [hpa] at ht
        cases ps with
        | nil => simp at ht
        | cons q rest =>
          have hq : 2 ≤ q.length := hp _ hpa q (List.mem_cons_self _ _)
          obtain ⟨x, y, hxy⟩ := getXY_ok_of_len hq
          have hdt : (dragTail rest).2 = none :=
            dragTail_ok rest (fun r hr => hp _ hpa r (List.mem_cons_of_mem _ hr))
          have hlen : 1 ≤ rest.length := by simpa [listTruthy] using ht.2
          cases hdd : dragTail rest with
          | mk es e2 =>
            rw [hdd] at hdt
            subst hdt
            simp [hpa, listTruthy, hlen, hxy, hdd]
    · simp [ht]
  · split_ifs <;> rfl
  · split_ifs <;> rfl
  · by_cases ht : listTruthy args.coordinates = true ∧ (args.delta_x ≠ none ∨ args.delta_y ≠ none)
    · obtain ⟨x, y, hxy⟩ := hcoord ht.1
      simp [ht, hxy]
    · simp [ht]

theorem flipLoop_none_iff (cid : Option String) (err : String) :
    ∀ l : List ActionRecord, flipLoop cid err l = none ↔ ∀ a ∈ l, some a.call_id ≠ cid := by
  intro l
  induction l with
  | nil => simp [flipLoop]
  | cons a rest ih =>
    simp only [flipLoop]
    split_ifs with h
    · constructor
      · intro hc
        exact absurd hc (by simp)
      · intro hall
        exact absurd h (hall a (List.mem_cons_self _ _))
    · cases hfl : flipLoop cid err rest with
      | none =>
        rw [hfl] at ih
        have ihp := ih.mp rfl
        constructor
        · intro _
          simp only [List.forall_mem_cons]
          exact ⟨h, ihp⟩
        · intro _
          rfl
      | some p =>
        obtain ⟨rest2, line⟩ := p
        rw [hfl] at ih
        have ihn : ¬ ∀ a ∈ rest, some a.call_id ≠ cid := fun hp => by simpa using ih.mpr hp
        constructor
        · intro hc
          exact absurd hc (by simp)
        · intro hall
          exact absurd (fun x hx => hall x (List.mem_cons_of_mem _ hx)) ihn

theorem flipLoop_some (cid : Option String) (err : String) :
    ∀ (l acts : List ActionRecord) (line : String),
      flipLoop cid err l = some (acts, line) →
      ∃ l1 rec l2, l = l1 ++ rec :: l2 ∧ some rec.call_id = cid ∧
        (∀ a ∈ l1, some a.call_id ≠ cid) ∧
        acts = l1 ++ markFailed rec err :: l2 ∧
        line = rec.action_type ++ ": " ++ err := by
  intro l
  induction l with
  | nil => intro acts line h; simp [flipLoop] at h
  | cons a rest ih =>
    intro acts line h
    by_cases hm : some a.call_id = cid
    · rw [flipLoop, if_pos hm] at h
      simp only [Option.some.injEq, Prod.mk.injEq] at h
      obtain ⟨ha, hl⟩ := h
      exact ⟨[], a, rest, by simp, hm, by simp, by simp [ha.symm], hl.symm⟩
    · rw [flipLoop, if_neg hm] at h
      cases hfl : flipLoop cid err rest with
      | none => rw [hfl] at h; simp at h
      | some p =>
        obtain ⟨rest2, line2⟩ := p
        rw [hfl] at h
        simp only [Option.some.injEq, Prod.mk.injEq] at h
        obtain ⟨hacts, hline⟩ := h
        obtain ⟨l1, rec, l2, hsplit, hcid, hnone, hacts2, hline2⟩ := ih rest2 line2 hfl
        refine ⟨a :: l1, rec, l2, by simp [hsplit], hcid, ?_, ?_, ?_⟩
        · intro x hx
          rcases List.mem_cons.mp hx with rfl | hx2
          · exact hm
          · exact hnone x hx2
        · rw [← hacts, hacts2]
          simp
        · rw [← hline, hline2]

theorem add_action_error_summary (r : CUAReport) (a : ActionRecord) :
    (r.add_action a).error_summary = r.error_summary ++ (errLine a).toList := by
  cases hs : a.status <;> cases he : a.error <;>
    simp [CUAReport.add_action, errLine, hs, he, strTruthy] <;>
    split_ifs <;> simp_all

theorem foldl_add_action_error_summary : ∀ (as : List ActionRecord) (r : CUAReport),
    (as.foldl CUAReport.add_action r).error_summary = r.error_summary ++ as.filterMap errLine := by
  intro as
  induction as with
  | nil => intro r; simp
  | cons a rest ih =>
    intro r
    simp only [List.foldl_cons, List.filterMap_cons]
    rw [ih, add_action_error_summary]
    cases h : errLine a <;> simp [h]

theorem add_action_invariant (r : CUAReport) (a : ActionRecord)
    (h : reportInvariant r) : reportInvariant (r.add_action a) := by
  cases hs : a.status <;>
    simp only [CUAReport.add_action, reportInvariant, hs] at h ⊢ <;> omega

theorem applyError_invariant (r : CUAReport) (cid : Option String) (err : String)
    (h : reportInvariant r) : reportInvariant (applyError r cid err) := by
  cases hfl : flipLoop cid err r.actions with
  | none => simpa [applyError, hfl] using h
  | some p =>
    obtain ⟨acts, line⟩ := p
    simp only [applyError, hfl, reportInvariant] at h ⊢
    omega

theorem foldl_invariant {α : Type} (f : CUAReport → α → CUAReport)
    (hf : ∀ r x, reportInvariant r → reportInvariant (f r x)) :
    ∀ (l : List α) (r : CUAReport), reportInvariant r → reportInvariant (l.foldl f r) := by
  intro l
  induction l with
  | nil => intro r h; simpa using h
  | cons x rest ih =>
    intro r h
    exact ih _ (hf _ _ h)

theorem pmRecordCalls_invariant (now : Nat) (r : CUAReport) (m : Message)
    (h : reportInvariant r) : reportInvariant (pmRecordCalls now r m) := by
  unfold pmRecordCalls
  cases m.additional_kwargs with
  | none => exact h
  | some ak =>
    refine foldl_invariant _ ?_ ak.tool_outputs r h
    intro r o hro
    split_ifs
    · exact add_action_invariant _ _ hro
    · exact hro

theorem pmApplyToolError_invariant (r : CUAReport) (m : Message)
    (h : reportInvariant r) : reportInvariant (pmApplyToolError r m) := by
  unfold pmApplyToolError
  dsimp only
  split_ifs <;> (repeat' split) <;>
    first
      | exact h
      | exact applyError_invariant _ _ _ h

theorem processMessage_invariant (now : Nat) (r : CUAReport) (m : Message)
    (h : reportInvariant r) : reportInvariant (processMessage now r m) :=
  pmApplyToolError_invariant _ _ (pmRecordCalls_invariant now r m h)

theorem processUpdate_invariant (now : Nat) (r : CUAReport) (u : UpdateData)
    (h : reportInvariant r) : reportInvariant (processUpdate now r u) := by
  unfold processUpdate
  (repeat' split) <;>
    first
      | exact h
      | exact add_action_invariant _ _ h
      | (refine foldl_invariant _ ?_ _ _ h
         intro r o hro
         split_ifs
         · exact add_action_invariant _ _ hro
         · exact hro)

theorem record_action_invariant (g : GenState) (now : Nat) (inp : RecordActionInput)
    (h : g.report.elim True reportInvariant) :
    ((record_action g now inp).report.elim True reportInvariant) := by
  cases hg : g.report with
  | none =>
    simp only [record_action, hg, GenState.start, Option.getD_some, Option.elim]
    exact add_action_invariant _ _ (by simp [reportInvariant, freshReport])
  | some r0 =>
    rw [hg] at h
    simp only [Option.elim] at h
    simp only [record_action, hg, Option.getD_some, Option.elim]
    exact add_action_invariant _ _ h

/-! ## Claim theorems -/

/-- C1 counterexample: pressing the key list ["ctrl","a"] issues two separate key-press events "ctrl" then "a" followed by the capture; it is not the single chord keystroke "Meta+a" the claim describes, so no combination detection takes place. -/

theorem c1_chord_counterexample :
    (computer_async (fun _ => ([] : List Nat))
        { action := "press_key", keys := some ["ctrl", "a"] }).1 =
      [Effect.keyPress "ctrl", Effect.keyPress "a", Effect.capture] ∧
    (computer_async (fun _ => ([] : List Nat))
        { action := "press_key", keys := some ["ctrl", "a"] }).1 ≠
      [Effect.keyPress "Meta+a", Effect.capture] := by
  decide

/-- C1 (amended): for the key-press action every key of the ordered list is translated individually and pressed individually in list order, for any page: ["ctrl","a"] issues "ctrl" then "a", and ["a","b"] issues "a" then "b". -/

theorem c1_press_key_individual_keystrokes : ∀ (f : List Effect → List Nat),
    (computer_async f { action := "press_key", keys := some ["ctrl", "a"] }).1 =
      [Effect.keyPress "ctrl", Effect.keyPress "a", Effect.capture] ∧
    (computer_async f { action := "press_key", keys := some ["a", "b"] }).1 =
      [Effect.keyPress "a", Effect.keyPress "b", Effect.capture] := by
  intro f
  exact ⟨rfl, rfl⟩

/-- C2 (amended): when the snapshot reconstructor applies an error of a computer_call_output tool response, it either leaves the report unchanged (no record shares the call id) or flips exactly the FIRST (earliest) ActionRecord sharing the call id, regardless of that record\x27s current status, decrementing the success counter, incrementing the failure counter and appending one error line. -/

theorem c2_flip_first_match : ∀ (r : CUAReport) (cid : Option String) (err : String),
    (applyError r cid err = r ∧ ∀ a ∈ r.actions, some a.call_id ≠ cid) ∨
    (∃ l1 rec l2, r.actions = l1 ++ rec :: l2 ∧ some rec.call_id = cid ∧
      (∀ a ∈ l1, some a.call_id ≠ cid) ∧
      applyError r cid err = { r with
        actions := l1 ++ markFailed rec err :: l2,
        successful_actions := r.successful_actions - 1,
        failed_actions := r.failed_actions + 1,
        error_summary := r.error_summary ++ [rec.action_type ++ ": " ++ err] }) := by
  intro r cid err
  cases hfl : flipLoop cid err r.actions with
  | none =>
    left
    constructor
    · rw [applyError, hfl]
    · exact (flipLoop_none_iff cid err r.actions).mp hfl
  | some p =>
    obtain ⟨acts, line⟩ := p
    obtain ⟨l1, rec, l2, hsplit, hcid, hnone, hacts, hline⟩ :=
      flipLoop_some cid err r.actions acts line hfl
    right
    refine ⟨l1, rec, l2, hsplit, hcid, hnone, ?_⟩
    rw [applyError, hfl, hacts, hline]

/-- C2 witness: applying the amended theorem at a concrete report with no matching record. -/

theorem c2_flip_first_match_witness :
    applyError (freshReport 0) none "boom" = freshReport 0 := by
  rcases c2_flip_first_match (freshReport 0) none "boom" with ⟨h, _⟩ | ⟨l1, rec, l2, _, hcid, _, _⟩
  · exact h
  · exact absurd hcid (by simp)

/-- C2 counterexample: with two still-successful records sharing call id c1 and one error response for c1, the code flips the FIRST record (result statuses [failed, success]); the claim\x27s most-recent-still-successful rule would give [success, failed]. -/

theorem c2_most_recent_counterexample :
    ((generate_report_from_state 0 c2State).actions.map (fun a => (a.call_id, a.status))) =
      [("c1", ActionStatus.failed), ("c1", ActionStatus.success)] ∧
    [("c1", ActionStatus.failed), ("c1", ActionStatus.success)] ≠
      [("c1", ActionStatus.success), ("c1", ActionStatus.failed)] := by
  decide

/-- C3 counterexample: translation is case-sensitive: "CTRL", "ctrl" and "Control" each pass through unchanged, so translate("CTRL") differs from translate("ctrl"), refuting the claimed case-insensitive equalities. -/

theorem c3_case_counterexample :
    map_key "CTRL" = "CTRL" ∧ map_key "ctrl" = "ctrl" ∧ map_key "Control" = "Control" ∧
    map_key "CTRL" ≠ map_key "ctrl" ∧ map_key "ctrl" ≠ map_key "Control" := by
  decide

/-- C3 (amended): key-name translation is a pure function and idempotent for every input (hence for already-canonical names), but its input matching is case-sensitive: the three spellings give three pairwise distinct results. -/

theorem c3_translate_idempotent_case_sensitive :
    (∀ k, map_key (map_key k) = map_key k) ∧
    map_key "CTRL" ≠ map_key "ctrl" ∧ map_key "ctrl" ≠ map_key "Control" ∧
    map_key "CTRL" ≠ map_key "Control" :=
  ⟨map_key_idem, by decide, by decide, by decide⟩

/-- C4 counterexample: appending a failed ActionRecord that carries no error text increments the failed counter to 1 while the error-summary list stays empty, so the list length does not always equal the failed-action count. -/

theorem c4_missing_error_counterexample :
    ((freshReport 0).add_action
        { action_type := "click_mouse", call_id := "c1", status := ActionStatus.failed,
          timestamp := 0 }).failed_actions = 1 ∧
    ((freshReport 0).add_action
        { action_type := "click_mouse", call_id := "c1", status := ActionStatus.failed,
          timestamp := 0 }).error_summary = [] ∧
    (([] : List String).length : Int) ≠ 1 := by
  decide

/-- C4 (amended): for every sequence of ActionRecords appended to a fresh Report, the error summary holds exactly one line per failed action that carries a non-empty error text, in append (failure) order. -/

theorem c4_error_summary_lines : ∀ (now : Nat) (as : List ActionRecord),
    (as.foldl CUAReport.add_action (freshReport now)).error_summary = as.filterMap errLine := by
  intro now as
  rw [foldl_add_action_error_summary]
  simp [freshReport]

/-- C5: total_actions = successful_actions + failed_actions + skipped_actions holds after any sequence of record_action calls, for every report produced by either reconstruction path, and is preserved by every status-flip correction. -/

theorem c5_counts_partition :
    (∀ (inps : List (Nat × RecordActionInput)),
      ((inps.foldl (fun g p => record_action g p.1 p.2) initGen).report.elim
        True reportInvariant)) ∧
    (∀ (now : Nat) (st : FinalState), reportInvariant (generate_report_from_state now st)) ∧
    (∀ (now : Nat) (us : List UpdateData), reportInvariant (from_stream_updates now us)) ∧
    (∀ (r : CUAReport) (cid : Option String) (err : String),
      reportInvariant r → reportInvariant (applyError r cid err)) := by
  refine ⟨?_, ?_, ?_, applyError_invariant⟩
  · intro inps
    have hgen : ∀ (l : List (Nat × RecordActionInput)) (g : GenState),
        g.report.elim True reportInvariant →
        ((l.foldl (fun g p => record_action g p.1 p.2) g).report.elim True reportInvariant) := by
      intro l
      induction l with
      | nil => intro g h; simpa using h
      | cons p rest ih =>
        intro g h
        exact ih _ (record_action_invariant g p.1 p.2 h)
    exact hgen inps initGen (by simp [initGen, Option.elim])
  · intro now st
    have hfold := foldl_invariant (processMessage now) (processMessage_invariant now)
      st.messages { freshReport now with instance_id := st.instance_id }
      (by simp [reportInvariant, freshReport])
    simpa [generate_report_from_state, reportInvariant] using hfold
  · intro now us
    have hfold := foldl_invariant (processUpdate now) (processUpdate_invariant now)
      us (freshReport now) (by simp [reportInvariant, freshReport])
    simpa [from_stream_updates, reportInvariant] using hfold

/-- C5 witness: the flip-preservation part of the theorem applied at a concrete fresh report. -/

theorem c5_counts_partition_witness :
    reportInvariant (applyError (freshReport 0) (some "c1") "x") :=
  c5_counts_partition.2.2.2 (freshReport 0) (some "c1") "x" (by simp [reportInvariant, freshReport])

/-- C6: an action kind outside the dispatch set makes the executor raise the unknown-action error with zero side effects (empty effect trace, no capture), and no recognized action kind ever raises that error. -/

theorem c6_unknown_action_dispatch : ∀ (f : List Effect → List Nat) (args : ComputerArgs),
    (args.action ∉ dispatchSet →
      computer_async f args = ([], Except.error (ExecError.unknownAction args.action))) ∧
    (args.action ∈ dispatchSet →
      ∀ s, (computer_async f args).2 ≠ Except.error (ExecError.unknownAction s)) := by
  intro f args
  constructor
  · intro h
    rw [computer_async, runAction_unknown args h]
  · intro h s
    rw [computer_async]
    cases hra : runAction args with
    | mk tr e2 =>
      have h2 := runAction_no_unknown args h
      rw [hra] at h2
      simp only at h2
      rcases h2 with h2 | h2 <;> subst h2 <;> simp

/-- C6 witness: both parts of the theorem applied at the concrete actions "teleport" and "press_key". -/

theorem c6_unknown_action_dispatch_witness :
    computer_async (fun _ => ([] : List Nat)) { action := "teleport" } =
      ([], Except.error (ExecError.unknownAction "teleport")) ∧
    ∀ s, (computer_async (fun _ => ([] : List Nat)) { action := "press_key" }).2 ≠
      Except.error (ExecError.unknownAction s) :=
  ⟨(c6_unknown_action_dispatch (fun _ => []) { action := "teleport" }).1 (by decide),
   (c6_unknown_action_dispatch (fun _ => []) { action := "press_key" }).2 (by decide)⟩

/-- C7: whenever the executor returns (for every recognized action it does return when the request is well formed, including no-op branches), its effect trace ends with exactly one capture performed after the action\x27s effects, and the sole payload is the base64 encoding of that capture. -/

theorem c7_single_capture_payload : ∀ (f : List Effect → List Nat) (args : ComputerArgs),
    (∀ tr r, computer_async f args = (tr, Except.ok r) →
      ∃ effs, tr = effs ++ [Effect.capture] ∧ Effect.capture ∉ effs ∧
        r = ⟨String.mk (b64encode (f effs))⟩) ∧
    (args.action ∈ dispatchSet → wfArgs args →
      ∃ tr r, computer_async f args = (tr, Except.ok r)) := by
  intro f args
  constructor
  · intro tr r h
    rw [computer_async] at h
    cases hra : runAction args with
    | mk tr0 e2 =>
      rw [hra] at h
      cases e2 with
      | some e => simp at h
      | none =>
        rw [Prod.mk.injEq] at h
        obtain ⟨h1, h2⟩ := h
        refine ⟨tr0, h1.symm, ?_, ?_⟩
        · have hnc := runAction_no_capture args
          rw [hra] at hnc
          simpa using hnc
        · simpa using h2.symm
  · intro hmem hwf
    have h2 := runAction_ok_of_wf args hmem hwf
    rw [computer_async]
    cases hra : runAction args with
    | mk tr0 e2 =>
      rw [hra] at h2
      simp only at h2
      subst h2
      exact ⟨_, _, rfl⟩

/-- C7 witness: both parts of the theorem applied at the concrete screenshot-only action. -/

theorem c7_single_capture_payload_witness :
    (∃ effs, ([Effect.capture] : List Effect) = effs ++ [Effect.capture] ∧
        Effect.capture ∉ effs ∧
        (⟨""⟩ : ComputerResponse) = ⟨String.mk (b64encode ((fun _ => ([] : List Nat)) effs))⟩) ∧
    (∃ tr r, computer_async (fun _ => ([] : List Nat)) { action := "take_screenshot" } =
      (tr, Except.ok r)) :=
  ⟨(c7_single_capture_payload (fun _ => []) { action := "take_screenshot" }).1
      [Effect.capture] ⟨""⟩ rfl,
   (c7_single_capture_payload (fun _ => []) { action := "take_screenshot" }).2
      (by decide) (by simp [wfArgs])⟩

set_option maxRecDepth 20000 in
/-- C8: requesting an ubuntu or windows session always fails, for every client, kwargs and configuration, with a descriptive error naming the requested kind and suggesting environment=\x27web\x27, both at the client methods and at the create_vm_instance node; no browser session is produced. -/
theorem c8_desktop_session_rejected : ∀ (c : PlaywrightClient) (kwargs : Dict)
    (sb : Option Int → List String → BrowserInstance) (th : Option Int),
    c.start_ubuntu kwargs = Except.error startUbuntuMsg ∧
    c.start_windows kwargs = Except.error startWindowsMsg ∧
    create_vm_instance sb none (some "ubuntu") th = Except.error cvmUbuntuMsg ∧
    create_vm_instance sb none (some "windows") th = Except.error cvmWindowsMsg ∧
    strHasSubstr startUbuntuMsg "Ubuntu" ∧ strHasSubstr startUbuntuMsg "environment=\x27web\x27" ∧
    strHasSubstr startWindowsMsg "Windows" ∧ strHasSubstr startWindowsMsg "environment=\x27web\x27" ∧
    strHasSubstr cvmUbuntuMsg "Ubuntu" ∧ strHasSubstr cvmUbuntuMsg "environment=\x27web\x27" ∧
    strHasSubstr cvmWindowsMsg "Windows" ∧ strHasSubstr cvmWindowsMsg "environment=\x27web\x27" := by
  intro c kwargs sb th
  refine ⟨rfl, rfl, rfl, rfl, ?_, ?_, ?_, ?_, ?_, ?_, ?_, ?_⟩ <;> decide

/-! Report lemmas -/

/-- C9: for both reconstruction paths the terminal status is "completed" iff zero failed actions were counted and "completed_with_errors" iff at least one was. -/

theorem c9_terminal_status_iff : ∀ (now : Nat) (updates : List UpdateData) (st : FinalState),
    ((from_stream_updates now updates).final_status = "completed" ↔
      (from_stream_updates now updates).failed_actions = 0) ∧
    ((from_stream_updates now updates).final_status = "completed_with_errors" ↔
      ¬(from_stream_updates now updates).failed_actions = 0) ∧
    ((generate_report_from_state now st).final_status = "completed" ↔
      (generate_report_from_state now st).failed_actions = 0) ∧
    ((generate_report_from_state now st).final_status = "completed_with_errors" ↔
      ¬(generate_report_from_state now st).failed_actions = 0) := by
  intro now updates st
  refine ⟨?_, ?_, ?_, ?_⟩
  · by_cases h : (updates.foldl (processUpdate now) (freshReport now)).failed_actions = 0 <;>
      simp [from_stream_updates, h]
  · by_cases h : (updates.foldl (processUpdate now) (freshReport now)).failed_actions = 0 <;>
      simp [from_stream_updates, h]
  · by_cases h : (st.messages.foldl (processMessage now)
        { freshReport now with instance_id := st.instance_id }).failed_actions = 0 <;>
      simp [generate_report_from_state, h]
  · by_cases h : (st.messages.foldl (processMessage now)
        { freshReport now with instance_id := st.instance_id }).failed_actions = 0 <;>
      simp [generate_report_from_state, h]

/-- C10: the client singleton is constructed by the first get_playwright_client call with its headless argument; a second call returns the same client and the same global, ignoring its own headless argument. -/

theorem c10_client_singleton : ∀ (h1 h2 : Bool),
    (get_playwright_client none h1).1.headless = h1 ∧
    (get_playwright_client (get_playwright_client none h1).2 h2).1 =
      (get_playwright_client none h1).1 ∧
    (get_playwright_client (get_playwright_client none h1).2 h2).1.headless = h1 ∧
    (get_playwright_client (get_playwright_client none h1).2 h2).2 =
      (get_playwright_client none h1).2 := by
  intro h1 h2
  exact ⟨rfl, rfl, rfl, rfl⟩
